import Mathlib

set_option maxRecDepth 4000

/-!
Verification of the WeSense Zenoh bridge acceptance pipeline.

Shallow embedding of `src/zenoh-bridge/bridge.py` (class `ZenohBridge`):
the per-reading acceptance callback `_on_reading`, the statistics counters,
and the shutdown transition, together with models of the Python builtin
conversions (`int`, `float`, `bytes.hex`, `datetime.fromtimestamp`) the
callback relies on.

Modelling conventions:
* Python runtime values occurring in a decoded reading dict are `PyVal`.
* Python floats are `PyFloat`: either an exact finite value (idealised as a
  rational, without IEEE-754 rounding or overflow of finite decimal
  literals), or one of `inf`, `neginf`, `nan`.
* A fallible builtin call is an `ExcResult`: `ok`, `caught` (an exception
  among `ValueError`, `TypeError`, `OSError`, the classes the callback's
  `except` clause handles), or `uncaught` (any other exception, which
  escapes the callback — in CPython, `OverflowError`).
* The collaborators imported from `wesense_ingester` (deduplication cache,
  buffered writer, subscriber/sink close) are not part of this repository's
  sources; they are modelled from the specification and marked as such.
-/

/-- A Python float value: an exact finite rational, or a special value.
Finite values are idealised as exact rationals (no IEEE-754 rounding, and
finite decimal literals never overflow to infinity in this model). -/
inductive PyFloat where
  | finite (q : ℚ)
  | inf
  | neginf
  | nan
deriving DecidableEq, Repr

/-- A Python runtime value as it can occur in a decoded reading dict:
`None`, a bool, an int, a float, a string, or an opaque container
(list/dict, identified by a tag so equality is decidable). -/
inductive PyVal where
  | none
  | bool (b : Bool)
  | int (n : Int)
  | float (f : PyFloat)
  | str (s : String)
  | obj (tag : Nat)
deriving DecidableEq, Repr

/-- Result of a fallible Python builtin call, classified by whether a raised
exception belongs to the classes `_on_reading` catches
(`ValueError`, `TypeError`, `OSError`) or escapes the callback. -/
inductive ExcResult (α : Type) where
  | ok (a : α)
  | caught
  | uncaught
deriving DecidableEq, Repr

/-- ASCII decimal digit test. -/
def isAsciiDigit (c : Char) : Bool := 48 ≤ c.toNat ∧ c.toNat ≤ 57

/-- ASCII whitespace test (the whitespace `int()`/`float()` strip). -/
def isPySpace (c : Char) : Bool :=
  c = ' ' ∨ c = '\t' ∨ c = '\n' ∨ c = '\r'

/-- Natural number denoted by a list of decimal digit characters. -/
def digitsToNat (cs : List Char) : Nat :=
  cs.foldl (fun a c => a * 10 + (c.toNat - 48)) 0

/-- Strip leading and trailing ASCII whitespace from a character list. -/
def stripSpaces (cs : List Char) : List Char :=
  ((cs.dropWhile isPySpace).reverse.dropWhile isPySpace).reverse

/-- Parse the optional exponent tail of a Python float literal
(empty, or `e`/`E` followed by an optionally signed digit string),
returning the power of ten it denotes. -/
def parseExpTail (cs : List Char) : Option ℤ :=
  match cs with
  | [] => some 0
  | 'e' :: rest =>
    match rest with
    | '+' :: ds => if ds ≠ [] ∧ ds.all isAsciiDigit then some (digitsToNat ds) else Option.none
    | '-' :: ds => if ds ≠ [] ∧ ds.all isAsciiDigit then some (-(digitsToNat ds : ℤ)) else Option.none
    | ds => if ds ≠ [] ∧ ds.all isAsciiDigit then some (digitsToNat ds) else Option.none
  | _ => Option.none

/-- Parse an unsigned Python decimal float literal (already lowercased,
whitespace stripped, sign removed): digits with an optional fractional
part, or a leading-dot fraction, with an optional exponent. -/
def parseDecimal (cs : List Char) : Option ℚ :=
  let intPart := cs.takeWhile isAsciiDigit
  let rest := cs.dropWhile isAsciiDigit
  match rest with
  | [] => if intPart ≠ [] then some (digitsToNat intPart : ℚ) else Option.none
  | '.' :: rest2 =>
    let fracPart := rest2.takeWhile isAsciiDigit
    let rest3 := rest2.dropWhile isAsciiDigit
    if intPart = [] ∧ fracPart = [] then Option.none
    else
      match parseExpTail rest3 with
      | some e =>
        some (((digitsToNat intPart : ℚ) + (digitsToNat fracPart : ℚ) / (10 : ℚ) ^ fracPart.length)
          * (10 : ℚ) ^ e)
      | Option.none => Option.none
  | _ =>
    if intPart = [] then Option.none
    else
      match parseExpTail rest with
      | some e => some ((digitsToNat intPart : ℚ) * (10 : ℚ) ^ e)
      | Option.none => Option.none

/-- Parse an unsigned Python float literal body: the special spellings
`inf`, `infinity`, `nan` (already lowercased) or a decimal literal. -/
def parseUnsignedFloat (cs : List Char) (neg : Bool) : Option PyFloat :=
  if cs = ['i', 'n', 'f'] ∨ cs = ['i', 'n', 'f', 'i', 'n', 'i', 't', 'y'] then
    some (if neg then PyFloat.neginf else PyFloat.inf)
  else if cs = ['n', 'a', 'n'] then
    some PyFloat.nan
  else
    (parseDecimal cs).map (fun q => PyFloat.finite (if neg then -q else q))

/-- Model of Python `float(s)` on a string: strip whitespace, lowercase,
take an optional sign, then a float literal body. `Option.none` models a
`ValueError`. (Underscore digit separators are not modelled.) -/
def strToPyFloat (s : String) : Option PyFloat :=
  match stripSpaces (s.data.map Char.toLower) with
  | '+' :: rest => parseUnsignedFloat rest false
  | '-' :: rest => parseUnsignedFloat rest true
  | rest => parseUnsignedFloat rest false

/-- Model of Python `int(s)` on a string: strip whitespace, optional sign,
then a nonempty digit string. `Option.none` models a `ValueError`.
(Underscore digit separators are not modelled.) -/
def strToInt (s : String) : Option Int :=
  match stripSpaces s.data with
  | '+' :: ds => if ds ≠ [] ∧ ds.all isAsciiDigit then some (digitsToNat ds : ℤ) else Option.none
  | '-' :: ds => if ds ≠ [] ∧ ds.all isAsciiDigit then some (-(digitsToNat ds : ℤ)) else Option.none
  | ds => if ds ≠ [] ∧ ds.all isAsciiDigit then some (digitsToNat ds : ℤ) else Option.none

/-- Truncation of a rational toward zero, as Python `int()` does on floats. -/
def truncQ (q : ℚ) : Int := if 0 ≤ q then ⌊q⌋ else -⌊-q⌋

/-- Model of Python `float(v)`: succeeds on bools, ints, floats and
numeric strings; raises `TypeError` on `None` and containers, `ValueError`
on non-numeric strings (both caught by the callback where it wraps the
call in `try`). Conversion of huge ints overflowing the float range is not
modelled. -/
def pyFloatConv (v : PyVal) : Option PyFloat :=
  match v with
  | PyVal.none => Option.none
  | PyVal.bool b => some (PyFloat.finite (if b then 1 else 0))
  | PyVal.int n => some (PyFloat.finite (n : ℚ))
  | PyVal.float f => some f
  | PyVal.str s => strToPyFloat s
  | PyVal.obj _ => Option.none

/-- Model of Python `int(v)`: `TypeError` on `None`/containers and
`ValueError` on bad strings or `nan` are caught by the callback's
`except` clause; `OverflowError` on an infinite float is NOT among the
caught classes and escapes. -/
def pyIntConv (v : PyVal) : ExcResult Int :=
  match v with
  | PyVal.none => ExcResult.caught
  | PyVal.bool b => ExcResult.ok (if b then 1 else 0)
  | PyVal.int n => ExcResult.ok n
  | PyVal.float (PyFloat.finite q) => ExcResult.ok (truncQ q)
  | PyVal.float PyFloat.inf => ExcResult.uncaught
  | PyVal.float PyFloat.neginf => ExcResult.uncaught
  | PyVal.float PyFloat.nan => ExcResult.caught
  | PyVal.str s =>
    match strToInt s with
    | some n => ExcResult.ok n
    | Option.none => ExcResult.caught
  | PyVal.obj _ => ExcResult.caught

/-- Epoch seconds of 0001-01-01T00:00:00Z, the smallest instant
`datetime.fromtimestamp` accepts. -/
def minEpoch : Int := -62135596800

/-- Epoch seconds of 9999-12-31T23:59:59Z, the largest whole-second instant
`datetime.fromtimestamp` accepts. -/
def maxEpoch : Int := 253402300799

/-- Model of `datetime.fromtimestamp(int(v), tz=timezone.utc)` as executed
in the callback's `try` block, returning the instant as epoch seconds.
An int-conversion failure propagates; an in-range epoch succeeds; an epoch
outside the datetime range but within the platform `time_t` (signed 64-bit)
range raises `ValueError`/`OSError` (caught); an epoch outside `time_t`
raises `OverflowError` (uncaught). -/
def parseTimestamp (v : PyVal) : ExcResult Int :=
  match pyIntConv v with
  | ExcResult.ok i =>
    if minEpoch ≤ i ∧ i ≤ maxEpoch then ExcResult.ok i
    else if -(2 ^ 63) ≤ i ∧ i ≤ 2 ^ 63 - 1 then ExcResult.caught
    else ExcResult.uncaught
  | ExcResult.caught => ExcResult.caught
  | ExcResult.uncaught => ExcResult.uncaught

/-- Lowercase hex digit character for a nibble value, as Python
`bytes.hex()` produces. -/
def hexDigit (n : Nat) : Char :=
  if n < 10 then Char.ofNat (48 + n) else Char.ofNat (87 + n)

/-- The two lowercase hex characters of one byte. -/
def byteHexChars (b : Fin 256) : List Char :=
  [hexDigit (b.val / 16), hexDigit (b.val % 16)]

/-- Model of Python `bytes.hex()`: lowercase hex, two characters per byte,
no separator. -/
def bytesHex (bs : List (Fin 256)) : String :=
  String.mk (bs.map byteHexChars).flatten

/-- Value of one hex digit character (either case), `Option.none` if the
character is not a hex digit. -/
def unhexDigit (c : Char) : Option (Fin 16) :=
  if h : 48 ≤ c.toNat ∧ c.toNat ≤ 57 then some ⟨c.toNat - 48, by omega⟩
  else if h2 : 97 ≤ c.toNat ∧ c.toNat ≤ 102 then some ⟨c.toNat - 87, by omega⟩
  else if h3 : 65 ≤ c.toNat ∧ c.toNat ≤ 70 then some ⟨c.toNat - 55, by omega⟩
  else Option.none

/-- Decode a hex character list two characters per byte, as Python
`bytes.fromhex` does on separator-free input. -/
def hexToBytes : List Char → Option (List (Fin 256))
  | [] => some []
  | c1 :: c2 :: rest =>
    match unhexDigit c1, unhexDigit c2, hexToBytes rest with
    | some h, some l, some bs =>
      some (⟨h.val * 16 + l.val, by have := h.isLt; have := l.isLt; omega⟩ :: bs)
    | _, _, _ => Option.none
  | [_] => Option.none

/-- Decode a hex string to bytes. -/
def hexDecode (s : String) : Option (List (Fin 256)) := hexToBytes s.data

/-- A signed envelope as the callback reads it: raw signature bytes,
originator identity and key version (`signed_reading.signature`,
`.ingester_id`, `.key_version`). -/
structure SignedReading where
  signature : List (Fin 256)
  ingester_id : String
  key_version : Int
deriving DecidableEq, Repr

/-- The decoded reading dict, restricted to the keys `_on_reading` reads.
A field is `Option.none` when the key is missing from the dict; note a key
can also be present and map to Python `None` (`some PyVal.none`). -/
structure ReadingDict where
  device_id : Option PyVal := Option.none
  reading_type : Option PyVal := Option.none
  timestamp : Option PyVal := Option.none
  value : Option PyVal := Option.none
  data_source : Option PyVal := Option.none
  network_source : Option PyVal := Option.none
  ingestion_node_id : Option PyVal := Option.none
  unit : Option PyVal := Option.none
  latitude : Option PyVal := Option.none
  longitude : Option PyVal := Option.none
  altitude : Option PyVal := Option.none
  geo_country : Option PyVal := Option.none
  geo_subdivision : Option PyVal := Option.none
  board_model : Option PyVal := Option.none
  sensor_model : Option PyVal := Option.none
  deployment_type : Option PyVal := Option.none
  deployment_type_source : Option PyVal := Option.none
  transport_type : Option PyVal := Option.none
  deployment_location : Option PyVal := Option.none
  node_name : Option PyVal := Option.none
  node_info : Option PyVal := Option.none
  node_info_url : Option PyVal := Option.none
deriving DecidableEq, Repr

/-- A dedup fingerprint: the `(device_id, reading_type, timestamp)` values
passed to `self.dedup.is_duplicate`, with the dict-lookup defaults already
applied. -/
abbrev Fingerprint := PyVal × PyVal × PyVal

/-- Modelled from the spec: `DeduplicationCache` is not part of this
repository's sources. Per §4.2, `checkAndRecord(fingerprint)` atomically
returns `true` if the fingerprint was already present (duplicate) and
`false` if newly recorded; the cache is a set of recently seen
fingerprints within the dedup horizon (expiry is not modelled: all
recorded fingerprints are within the horizon). -/
def dedupCheckAndRecord (cache : List Fingerprint) (fp : Fingerprint) :
    Bool × List Fingerprint :=
  if fp ∈ cache then (true, cache) else (false, fp :: cache)

/-- The 25-field row tuple built at lines 135–161 of `bridge.py`, fields in
the source's tuple order (matching `BRIDGE_COLUMNS`). -/
structure Row where
  ts : Int
  device_id : PyVal
  data_source : PyVal
  network_source : PyVal
  ingestion_node_id : PyVal
  reading_type : PyVal
  value : PyFloat
  unit : PyVal
  latitude : Option PyFloat
  longitude : Option PyFloat
  altitude : Option PyFloat
  geo_country : PyVal
  geo_subdivision : PyVal
  board_model : PyVal
  sensor_model : PyVal
  deployment_type : PyVal
  deployment_type_source : PyVal
  transport_type : PyVal
  deployment_location : PyVal
  node_name : PyVal
  node_info : PyVal
  node_info_url : PyVal
  signature : String
  ingester_id : String
  key_version : Int
deriving DecidableEq, Repr

/-- One field value of a row tuple (heterogeneous tuple entry). -/
inductive FieldVal where
  | timeF (t : Int)
  | pyF (v : PyVal)
  | floatF (f : PyFloat)
  | optFloatF (f : Option PyFloat)
  | strF (s : String)
  | intF (n : Int)
deriving DecidableEq, Repr

/-- The row as the ordered 25-entry tuple the source builds. -/
def Row.toFields (r : Row) : List FieldVal :=
  [FieldVal.timeF r.ts, FieldVal.pyF r.device_id, FieldVal.pyF r.data_source,
   FieldVal.pyF r.network_source, FieldVal.pyF r.ingestion_node_id,
   FieldVal.pyF r.reading_type, FieldVal.floatF r.value, FieldVal.pyF r.unit,
   FieldVal.optFloatF r.latitude, FieldVal.optFloatF r.longitude,
   FieldVal.optFloatF r.altitude, FieldVal.pyF r.geo_country,
   FieldVal.pyF r.geo_subdivision, FieldVal.pyF r.board_model,
   FieldVal.pyF r.sensor_model, FieldVal.pyF r.deployment_type,
   FieldVal.pyF r.deployment_type_source, FieldVal.pyF r.transport_type,
   FieldVal.pyF r.deployment_location, FieldVal.pyF r.node_name,
   FieldVal.pyF r.node_info, FieldVal.pyF r.node_info_url,
   FieldVal.strF r.signature, FieldVal.strF r.ingester_id,
   FieldVal.intF r.key_version]

/-- `BRIDGE_COLUMNS` from `bridge.py` lines 41–48: the 25-column unified
schema, in order. -/
def BRIDGE_COLUMNS : List String :=
  ["timestamp", "device_id", "data_source", "network_source", "ingestion_node_id",
   "reading_type", "value", "unit",
   "latitude", "longitude", "altitude", "geo_country", "geo_subdivision",
   "board_model", "sensor_model", "deployment_type", "deployment_type_source",
   "transport_type", "deployment_location", "node_name", "node_info", "node_info_url",
   "signature", "ingester_id", "key_version"]

/-- The bridge's `self.stats` dict (lines 87–92). -/
structure Stats where
  received : Nat := 0
  written : Nat := 0
  duplicates : Nat := 0
  unsigned : Nat := 0
deriving DecidableEq, Repr

/-- A log message emitted by the callback (the only one is the invalid
timestamp warning at line 123). -/
inductive LogEntry where
  | invalidTimestamp (timestamp : PyVal) (device_id : PyVal)
deriving DecidableEq, Repr

/-- The mutable state `_on_reading` touches: the stats counters, the dedup
cache, the writer's buffered rows (`ch_writer.add` appends; the writer is
modelled from the spec §4.4 as an in-memory row buffer), and the log. -/
structure BridgeState where
  stats : Stats := {}
  dedup : List Fingerprint := []
  writer : List Row := []
  log : List LogEntry := []
deriving DecidableEq, Repr

/-- The bridge state at construction: all counters zero, empty cache,
empty buffer. -/
def initBridgeState : BridgeState := {}

/-- How one `_on_reading` invocation ended. -/
inductive COutcome where
  | dropDuplicate
  | dropTimestamp
  | dropValue
  | wrote (row : Row)
  | raised
deriving DecidableEq, Repr

/-- The geolocation conversion at lines 144–146:
`float(reading_dict[k]) if reading_dict.get(k) is not None else None`.
A missing key or a `None` value yields `None`; otherwise `float(...)` runs
OUTSIDE any `try`, so a conversion failure (`ValueError`/`TypeError`)
escapes the callback. -/
def geoFloat (v : Option PyVal) : ExcResult (Option PyFloat) :=
  match v with
  | Option.none => ExcResult.ok Option.none
  | some PyVal.none => ExcResult.ok Option.none
  | some w =>
    match pyFloatConv w with
    | some f => ExcResult.ok (some f)
    | Option.none => ExcResult.uncaught

/-- Shallow embedding of `ZenohBridge._on_reading` (lines 94–163),
returning the updated bridge state and how the invocation ended.
The control flow mirrors the source line by line: increment `received`;
dedup check on `(device_id, reading_type, timestamp)` with dict defaults
`""`, `""`, `0`; extract signature fields from the envelope (or flag
unsigned); parse the timestamp inside `try/except (ValueError, TypeError,
OSError)`; validate the value; build the 25-field row; append and count. -/
def onReading (s : BridgeState) (reading_dict : ReadingDict)
    (signed_reading : Option SignedReading) : BridgeState × COutcome :=
  let stats0 := { s.stats with received := s.stats.received + 1 }
  let device_id := reading_dict.device_id.getD (PyVal.str "")
  let reading_type := reading_dict.reading_type.getD (PyVal.str "")
  let timestamp := reading_dict.timestamp.getD (PyVal.int 0)
  let checked := dedupCheckAndRecord s.dedup (device_id, reading_type, timestamp)
  if checked.1 then
    let statsDup := { stats0 with duplicates := stats0.duplicates + 1 }
    ({ s with stats := statsDup, dedup := checked.2 }, COutcome.dropDuplicate)
  else
    let dedup1 := checked.2
    let sigFields : String × String × Int × Stats :=
      match signed_reading with
      | some sr => (bytesHex sr.signature, sr.ingester_id, sr.key_version, stats0)
      | Option.none => ("", "", 0, { stats0 with unsigned := stats0.unsigned + 1 })
    let signature := sigFields.1
    let ingester_id := sigFields.2.1
    let key_version := sigFields.2.2.1
    let stats1 := sigFields.2.2.2
    match parseTimestamp timestamp with
    | ExcResult.uncaught =>
      ({ s with stats := stats1, dedup := dedup1 }, COutcome.raised)
    | ExcResult.caught =>
      let log1 := s.log ++ [LogEntry.invalidTimestamp timestamp device_id]
      ({ s with stats := stats1, dedup := dedup1, log := log1 }, COutcome.dropTimestamp)
    | ExcResult.ok ts =>
      match reading_dict.value with
      | Option.none =>
        ({ s with stats := stats1, dedup := dedup1 }, COutcome.dropValue)
      | some PyVal.none =>
        ({ s with stats := stats1, dedup := dedup1 }, COutcome.dropValue)
      | some v =>
        match pyFloatConv v with
        | Option.none =>
          ({ s with stats := stats1, dedup := dedup1 }, COutcome.dropValue)
        | some value =>
          match geoFloat reading_dict.latitude, geoFloat reading_dict.longitude,
              geoFloat reading_dict.altitude with
          | ExcResult.ok la, ExcResult.ok lo, ExcResult.ok al =>
            let row : Row :=
              { ts := ts
                device_id := device_id
                data_source := reading_dict.data_source.getD (PyVal.str "")
                network_source := reading_dict.network_source.getD (PyVal.str "")
                ingestion_node_id := reading_dict.ingestion_node_id.getD (PyVal.str "")
                reading_type := reading_type
                value := value
                unit := reading_dict.unit.getD (PyVal.str "")
                latitude := la
                longitude := lo
                altitude := al
                geo_country := reading_dict.geo_country.getD (PyVal.str "")
                geo_subdivision := reading_dict.geo_subdivision.getD (PyVal.str "")
                board_model := reading_dict.board_model.getD (PyVal.str "")
                sensor_model := reading_dict.sensor_model.getD (PyVal.str "")
                deployment_type := reading_dict.deployment_type.getD (PyVal.str "")
                deployment_type_source := reading_dict.deployment_type_source.getD (PyVal.str "")
                transport_type := reading_dict.transport_type.getD (PyVal.str "")
                deployment_location := reading_dict.deployment_location.getD (PyVal.str "")
                node_name := reading_dict.node_name.getD PyVal.none
                node_info := reading_dict.node_info.getD PyVal.none
                node_info_url := reading_dict.node_info_url.getD PyVal.none
                signature := signature
                ingester_id := ingester_id
                key_version := key_version }
            let statsW := { stats1 with written := stats1.written + 1 }
            ({ s with stats := statsW, dedup := dedup1, writer := s.writer ++ [row] },
             COutcome.wrote row)
          | _, _, _ =>
            ({ s with stats := stats1, dedup := dedup1 }, COutcome.raised)

/-- Run a sequence of callback invocations from a starting state. -/
def runReadings (s : BridgeState)
    (events : List (ReadingDict × Option SignedReading)) : BridgeState :=
  events.foldl (fun st e => (onReading st e.1 e.2).1) s

/-- Lifecycle state touched by `ZenohBridge.shutdown` (lines 183–192): the
`running` flag and the closed state of the subscriber and the writer sink.
`subscriberTeardowns`/`writerTeardowns` count the effectful teardown
operations actually performed on the session and the sink. (The two
informational log lines `shutdown` prints are observability, not state,
and are not modelled.) -/
structure LifeState where
  running : Bool := true
  subscriberClosed : Bool := false
  writerClosed : Bool := false
  subscriberTeardowns : Nat := 0
  writerTeardowns : Nat := 0
deriving DecidableEq, Repr

/-- The lifecycle state after `__init__`: running, nothing closed. -/
def initLifeState : LifeState := {}

/-- Modelled from the spec: `ZenohSubscriber.close()` is not part of this
repository's sources; per §4.3 it unsubscribes and tears down the session
idempotently, so the effectful teardown runs only on the first call. -/
def subscriberClose (l : LifeState) : LifeState :=
  if l.subscriberClosed then l
  else { l with subscriberClosed := true,
                subscriberTeardowns := l.subscriberTeardowns + 1 }

/-- Modelled from the spec: `BufferedClickHouseWriter.close()` is not part
of this repository's sources; per §4.4 it performs a final flush and
releases the sink connection, idempotent on repeated calls. -/
def writerClose (l : LifeState) : LifeState :=
  if l.writerClosed then l
  else { l with writerClosed := true,
                writerTeardowns := l.writerTeardowns + 1 }

/-- Shallow embedding of `ZenohBridge.shutdown` (lines 183–192): clear the
running flag, close the subscriber, close the writer. -/
def shutdown (l : LifeState) : LifeState :=
  writerClose (subscriberClose { l with running := false })

/-- A well-formed reading: device `d`, kind `t`, epoch second 1000,
integer value 5, every optional field absent. -/
def rdOk : ReadingDict :=
  { device_id := some (PyVal.str "d"), reading_type := some (PyVal.str "t"),
    timestamp := some (PyVal.int 1000), value := some (PyVal.int 5) }

/-- Same fingerprint as `rdOk` but with the value key missing. -/
def rdNoValue : ReadingDict :=
  { device_id := some (PyVal.str "d"), reading_type := some (PyVal.str "t"),
    timestamp := some (PyVal.int 1000) }

/-- A reading whose value is the Python float `inf` (as produced, e.g., by
`json.loads` on a message containing the literal `Infinity`). -/
def rdValInf : ReadingDict :=
  { device_id := some (PyVal.str "d2"), reading_type := some (PyVal.str "t"),
    timestamp := some (PyVal.int 1000), value := some (PyVal.float PyFloat.inf) }

/-- A reading whose timestamp is the Python float `inf`. -/
def rdTsInf : ReadingDict :=
  { device_id := some (PyVal.str "d3"), reading_type := some (PyVal.str "t"),
    timestamp := some (PyVal.float PyFloat.inf), value := some (PyVal.int 5) }

/-- A reading whose timestamp is a non-numeric string. -/
def rdTsBadStr : ReadingDict :=
  { device_id := some (PyVal.str "d4"), reading_type := some (PyVal.str "t"),
    timestamp := some (PyVal.str "x"), value := some (PyVal.int 5) }

/-- A reading whose value is a non-numeric string. -/
def rdValStr : ReadingDict :=
  { device_id := some (PyVal.str "d5"), reading_type := some (PyVal.str "t"),
    timestamp := some (PyVal.int 1000), value := some (PyVal.str "abc") }

/-- A concrete signed envelope. -/
def srW : SignedReading :=
  { signature := [0, 15, 255], ingester_id := "ing", key_version := 7 }

/-- The `(device_id, reading_type, timestamp)` dedup fingerprint of a
reading dict, with the dict-lookup defaults of lines 98–100. -/
def fingerprintOf (r : ReadingDict) : Fingerprint :=
  (r.device_id.getD (PyVal.str ""), r.reading_type.getD (PyVal.str ""),
   r.timestamp.getD (PyVal.int 0))

/-- Finiteness of a Python float. -/
def PyFloat.isFinite : PyFloat → Bool
  | PyFloat.finite _ => true
  | _ => false

/-- The state produced by the duplicate branch of the callback: only
`received` and `duplicates` advance. -/
def dupState (s : BridgeState) : BridgeState :=
  let stats1 := { s.stats with
      received := s.stats.received + 1
      duplicates := s.stats.duplicates + 1 }
  { s with stats := stats1 }

/-- Signature hex string the callback stores for an envelope-or-absent
(lines 108–117). -/
def sigStrOf : Option SignedReading → String
  | some sr => bytesHex sr.signature
  | Option.none => ""

/-- Ingester id the callback stores for an envelope-or-absent. -/
def ingesterOf : Option SignedReading → String
  | some sr => sr.ingester_id
  | Option.none => ""

/-- Key version the callback stores for an envelope-or-absent. -/
def keyVerOf : Option SignedReading → Int
  | some sr => sr.key_version
  | Option.none => 0

/-- 1 when the reading arrived without an envelope (the unsigned-counter
increment), 0 otherwise. -/
def unsignedFlag : Option SignedReading → Nat
  | some _ => 0
  | Option.none => 1

/-- The row the callback builds from a reading that passed all validation,
with parsed timestamp `ts`, converted value `f` and converted geolocation
fields: all remaining fields come from the dict with the source's
defaults, and the signature fields from the envelope-or-absent. -/
def expectedRow (r : ReadingDict) (ts : Int) (f : PyFloat)
    (la lo al : Option PyFloat) (e : Option SignedReading) : Row :=
  { ts := ts
    device_id := r.device_id.getD (PyVal.str "")
    data_source := r.data_source.getD (PyVal.str "")
    network_source := r.network_source.getD (PyVal.str "")
    ingestion_node_id := r.ingestion_node_id.getD (PyVal.str "")
    reading_type := r.reading_type.getD (PyVal.str "")
    value := f
    unit := r.unit.getD (PyVal.str "")
    latitude := la
    longitude := lo
    altitude := al
    geo_country := r.geo_country.getD (PyVal.str "")
    geo_subdivision := r.geo_subdivision.getD (PyVal.str "")
    board_model := r.board_model.getD (PyVal.str "")
    sensor_model := r.sensor_model.getD (PyVal.str "")
    deployment_type := r.deployment_type.getD (PyVal.str "")
    deployment_type_source := r.deployment_type_source.getD (PyVal.str "")
    transport_type := r.transport_type.getD (PyVal.str "")
    deployment_location := r.deployment_location.getD (PyVal.str "")
    node_name := r.node_name.getD PyVal.none
    node_info := r.node_info.getD PyVal.none
    node_info_url := r.node_info_url.getD PyVal.none
    signature := sigStrOf e
    ingester_id := ingesterOf e
    key_version := keyVerOf e }

example : (onReading initBridgeState rdOk Option.none).1.stats.written = 1 := by decide
example : (onReading initBridgeState rdOk Option.none).1.stats.unsigned = 1 := by decide
example : (onReading initBridgeState rdOk Option.none).1.writer.length = 1 := by decide
example :
    (runReadings initBridgeState [(rdOk, Option.none), (rdOk, Option.none)]).stats.duplicates
      = 1 := by decide
example :
    (runReadings initBridgeState [(rdOk, Option.none), (rdOk, Option.none)]).writer.length
      = 1 := by decide
example :
    (onReading initBridgeState rdOk
        (some { signature := [255, 0], ingester_id := "ing", key_version := 3 })).1.writer.map
        Row.signature = ["ff00"] := by decide

example : strToPyFloat "inf" = some PyFloat.inf := by decide
example : strToPyFloat " -Infinity " = some PyFloat.neginf := by decide
example : strToPyFloat "abc" = Option.none := by decide
example : strToPyFloat "12" = some (PyFloat.finite 12) := by decide
example : pyIntConv (PyVal.float PyFloat.inf) = ExcResult.uncaught := by decide
example : parseTimestamp (PyVal.int 1700000000) = ExcResult.ok 1700000000 := by decide
example : parseTimestamp (PyVal.int (2 ^ 100)) = ExcResult.uncaught := by decide
example : parseTimestamp (PyVal.str "x") = ExcResult.caught := by decide

lemma unhex_hexDigit : ∀ n : Fin 16, unhexDigit (hexDigit n.val) = some n := by decide

lemma hexToBytes_cons (b : Fin 256) (rest : List Char) :
    hexToBytes (byteHexChars b ++ rest) = (hexToBytes rest).map (fun bs => b :: bs) := by
  have hlt : b.val / 16 < 16 := by omega
  have h1 : unhexDigit (hexDigit (b.val / 16)) = some ⟨b.val / 16, hlt⟩ :=
    unhex_hexDigit ⟨b.val / 16, hlt⟩
  have hlt2 : b.val % 16 < 16 := by omega
  have h2 : unhexDigit (hexDigit (b.val % 16)) = some ⟨b.val % 16, hlt2⟩ :=
    unhex_hexDigit ⟨b.val % 16, hlt2⟩
  have hb : (⟨b.val / 16 * 16 + b.val % 16, by omega⟩ : Fin 256) = b := by
    apply Fin.ext
    simp
    omega
  simp only [byteHexChars, List.cons_append, List.nil_append, hexToBytes, h1, h2]
  cases h : hexToBytes rest <;> simp [List.append_eq, h, hb]

lemma hexToBytes_flatten (bs : List (Fin 256)) :
    hexToBytes (bs.map byteHexChars).flatten = some bs := by
  induction bs with
  | nil => rfl
  | cons b rest ih =>
    simp only [List.map_cons, List.flatten_cons]
    rw [hexToBytes_cons, ih]
    rfl

/-- Hex round-trip: decoding the hex string of a byte list recovers the
byte list exactly. -/
lemma hexDecode_bytesHex (bs : List (Fin 256)) : hexDecode (bytesHex bs) = some bs :=
  hexToBytes_flatten bs

lemma onReading_received (s : BridgeState) (r : ReadingDict) (e : Option SignedReading) :
    (onReading s r e).1.stats.received = s.stats.received + 1 := by
  simp only [onReading]
  repeat' split
  all_goals rfl

lemma onReading_write_step (s : BridgeState) (r : ReadingDict) (e : Option SignedReading) :
    (∃ row, (onReading s r e).2 = COutcome.wrote row ∧
      (onReading s r e).1.writer = s.writer ++ [row] ∧
      (onReading s r e).1.stats.written = s.stats.written + 1) ∨
    ((onReading s r e).1.writer = s.writer ∧
      (onReading s r e).1.stats.written = s.stats.written ∧
      ∀ row, (onReading s r e).2 ≠ COutcome.wrote row) := by
  simp only [onReading]
  repeat' split
  all_goals simp

lemma onReading_dup (s : BridgeState) (r : ReadingDict) (e : Option SignedReading)
    (h : (dedupCheckAndRecord s.dedup (fingerprintOf r)).1 = true) :
    onReading s r e = (dupState s, COutcome.dropDuplicate) := by
  have mem : fingerprintOf r ∈ s.dedup := by
    by_contra hm
    simp [dedupCheckAndRecord, hm] at h
  simp only [fingerprintOf] at mem
  simp only [onReading, dedupCheckAndRecord, dupState]
  simp [mem]

lemma fingerprint_mem_dedup (s : BridgeState) (r : ReadingDict) (e : Option SignedReading) :
    fingerprintOf r ∈ (onReading s r e).1.dedup := by
  simp only [onReading, fingerprintOf, dedupCheckAndRecord]
  repeat' split
  all_goals simp_all

lemma onReading_wd_step (s : BridgeState) (r : ReadingDict) (e : Option SignedReading) :
    (onReading s r e).1.stats.written + (onReading s r e).1.stats.duplicates
      ≤ s.stats.written + s.stats.duplicates + 1 := by
  simp only [onReading]
  repeat' split
  all_goals simp
  all_goals omega

lemma onReading_mono (s : BridgeState) (r : ReadingDict) (e : Option SignedReading) :
    s.stats.received ≤ (onReading s r e).1.stats.received ∧
    s.stats.written ≤ (onReading s r e).1.stats.written ∧
    s.stats.duplicates ≤ (onReading s r e).1.stats.duplicates ∧
    s.stats.unsigned ≤ (onReading s r e).1.stats.unsigned := by
  simp only [onReading]
  repeat' split
  all_goals simp

lemma not_mem_of_check_false (s : BridgeState) (r : ReadingDict)
    (h : (dedupCheckAndRecord s.dedup (fingerprintOf r)).1 = false) :
    fingerprintOf r ∉ s.dedup := by
  intro hm
  simp [dedupCheckAndRecord, hm] at h

lemma onReading_written_case (s : BridgeState) (r : ReadingDict) (e : Option SignedReading)
    (ts : Int) (v : PyVal) (f : PyFloat) (la lo al : Option PyFloat)
    (hnd : (dedupCheckAndRecord s.dedup (fingerprintOf r)).1 = false)
    (hts : parseTimestamp (r.timestamp.getD (PyVal.int 0)) = ExcResult.ok ts)
    (hv : r.value = some v) (hconv : pyFloatConv v = some f)
    (hla : geoFloat r.latitude = ExcResult.ok la)
    (hlo : geoFloat r.longitude = ExcResult.ok lo)
    (hal : geoFloat r.altitude = ExcResult.ok al) :
    (onReading s r e).2 = COutcome.wrote (expectedRow r ts f la lo al e) ∧
    (onReading s r e).1.writer = s.writer ++ [expectedRow r ts f la lo al e] ∧
    (onReading s r e).1.stats.written = s.stats.written + 1 ∧
    (onReading s r e).1.stats.unsigned = s.stats.unsigned + unsignedFlag e ∧
    (onReading s r e).1.stats.duplicates = s.stats.duplicates ∧
    (onReading s r e).1.log = s.log := by
  have hmem := not_mem_of_check_false s r hnd
  simp only [fingerprintOf] at hmem
  simp only [onReading, dedupCheckAndRecord, expectedRow, sigStrOf, ingesterOf, keyVerOf,
    unsignedFlag]
  cases e <;>
    cases v <;>
      simp_all [hts, hv, hla, hlo, hal]
  all_goals simp [pyFloatConv] at hconv

lemma onReading_ts_caught (s : BridgeState) (r : ReadingDict) (e : Option SignedReading)
    (hnd : (dedupCheckAndRecord s.dedup (fingerprintOf r)).1 = false)
    (hts : parseTimestamp (r.timestamp.getD (PyVal.int 0)) = ExcResult.caught) :
    (onReading s r e).2 = COutcome.dropTimestamp ∧
    (onReading s r e).1.writer = s.writer ∧
    (onReading s r e).1.stats.written = s.stats.written ∧
    (onReading s r e).1.stats.duplicates = s.stats.duplicates ∧
    (onReading s r e).1.stats.unsigned = s.stats.unsigned + unsignedFlag e ∧
    (onReading s r e).1.log = s.log ++
      [LogEntry.invalidTimestamp (r.timestamp.getD (PyVal.int 0))
        (r.device_id.getD (PyVal.str ""))] := by
  have hmem := not_mem_of_check_false s r hnd
  simp only [fingerprintOf] at hmem
  simp only [onReading, dedupCheckAndRecord, unsignedFlag]
  cases e <;> simp_all [hts]

lemma onReading_ts_uncaught (s : BridgeState) (r : ReadingDict) (e : Option SignedReading)
    (hnd : (dedupCheckAndRecord s.dedup (fingerprintOf r)).1 = false)
    (hts : parseTimestamp (r.timestamp.getD (PyVal.int 0)) = ExcResult.uncaught) :
    (onReading s r e).2 = COutcome.raised ∧
    (onReading s r e).1.writer = s.writer ∧
    (onReading s r e).1.stats.written = s.stats.written ∧
    (onReading s r e).1.stats.duplicates = s.stats.duplicates ∧
    (onReading s r e).1.stats.unsigned = s.stats.unsigned + unsignedFlag e ∧
    (onReading s r e).1.log = s.log := by
  have hmem := not_mem_of_check_false s r hnd
  simp only [fingerprintOf] at hmem
  simp only [onReading, dedupCheckAndRecord, unsignedFlag]
  cases e <;> simp_all [hts]

lemma onReading_value_drop (s : BridgeState) (r : ReadingDict) (e : Option SignedReading)
    (ts : Int)
    (hnd : (dedupCheckAndRecord s.dedup (fingerprintOf r)).1 = false)
    (hts : parseTimestamp (r.timestamp.getD (PyVal.int 0)) = ExcResult.ok ts)
    (hval : ∀ v, r.value = some v → pyFloatConv v = Option.none) :
    (onReading s r e).2 = COutcome.dropValue ∧
    (onReading s r e).1.writer = s.writer ∧
    (onReading s r e).1.stats.written = s.stats.written ∧
    (onReading s r e).1.stats.duplicates = s.stats.duplicates ∧
    (onReading s r e).1.stats.unsigned = s.stats.unsigned + unsignedFlag e ∧
    (onReading s r e).1.log = s.log := by
  have hmem := not_mem_of_check_false s r hnd
  simp only [fingerprintOf] at hmem
  simp only [onReading, dedupCheckAndRecord, unsignedFlag]
  cases hv : r.value with
  | none => cases e <;> simp_all [hts]
  | some v =>
    have hconv := hval v hv
    cases e <;> cases v <;> simp_all [hts]

/-- Inversion: any row the callback reports as written is the row built
from the reading's fields, a successfully parsed timestamp, a successfully
converted value and successfully converted geolocation fields. -/
lemma row_of_written (s : BridgeState) (r : ReadingDict) (e : Option SignedReading)
    (row : Row) (h : (onReading s r e).2 = COutcome.wrote row) :
    ∃ ts f la lo al, row = expectedRow r ts f la lo al e ∧
      geoFloat r.latitude = ExcResult.ok la ∧
      geoFloat r.longitude = ExcResult.ok lo ∧
      geoFloat r.altitude = ExcResult.ok al ∧
      parseTimestamp (r.timestamp.getD (PyVal.int 0)) = ExcResult.ok ts ∧
      ∃ v, r.value = some v ∧ pyFloatConv v = some f := by
  cases e <;> simp only [onReading] at h <;> repeat' split at h
  all_goals try simp only at h
  all_goals injection h
  all_goals rename_i hrow
  all_goals subst hrow
  all_goals exact ⟨_, _, _, _, _, rfl, by assumption, by assumption, by assumption,
    by assumption, _, by assumption, by assumption⟩

lemma onReading_unsigned_nodup (s : BridgeState) (r : ReadingDict)
    (hnd : (dedupCheckAndRecord s.dedup (fingerprintOf r)).1 = false) :
    (onReading s r Option.none).1.stats.unsigned = s.stats.unsigned + 1 := by
  have hmem := not_mem_of_check_false s r hnd
  simp only [fingerprintOf] at hmem
  simp only [onReading, dedupCheckAndRecord]
  simp only [hmem, if_false, ite_false, if_neg, not_false_iff]
  repeat' split
  all_goals simp_all

lemma runReadings_received (events : List (ReadingDict × Option SignedReading)) :
    ∀ s : BridgeState,
      (runReadings s events).stats.received = s.stats.received + events.length := by
  induction events with
  | nil => intro s; simp [runReadings]
  | cons ev evs ih =>
    intro s
    have hstep : runReadings s (ev :: evs) = runReadings (onReading s ev.1 ev.2).1 evs := rfl
    rw [hstep, ih, onReading_received]
    simp
    omega

lemma runReadings_ineq (events : List (ReadingDict × Option SignedReading)) :
    ∀ s : BridgeState,
      s.stats.written + s.stats.duplicates ≤ s.stats.received →
      (runReadings s events).stats.written + (runReadings s events).stats.duplicates
        ≤ (runReadings s events).stats.received := by
  induction events with
  | nil => intro s h; simpa [runReadings] using h
  | cons ev evs ih =>
    intro s h
    have hstep : runReadings s (ev :: evs) = runReadings (onReading s ev.1 ev.2).1 evs := rfl
    rw [hstep]
    apply ih
    have h1 := onReading_wd_step s ev.1 ev.2
    have h2 := onReading_received s ev.1 ev.2
    omega

/-- C1 counterexample: two readings sharing a fingerprint delivered within
the dedup horizon can yield ZERO persisted rows, not exactly one: the
first reading's fingerprint is recorded by the dedup check before value
validation, so when the first reading is dropped for a missing value the
second is discarded as a duplicate and nothing is ever persisted. -/
theorem C1_counterexample :
    fingerprintOf rdNoValue = fingerprintOf rdOk ∧
    (runReadings initBridgeState [(rdNoValue, Option.none), (rdOk, Option.none)]).stats.duplicates
      = 1 ∧
    (runReadings initBridgeState [(rdNoValue, Option.none), (rdOk, Option.none)]).writer.length
      = 0 := by decide

/-- C1 (amended): when the dedup cache reports a reading's fingerprint as a
duplicate, the callback increments the duplicate counter exactly once and
returns with no row appended and no other state change; a second reading
sharing the fingerprint of any earlier delivered reading is always
discarded as a duplicate, so two readings sharing a fingerprint within the
dedup horizon yield AT MOST one persisted row — exactly one precisely when
the first of the pair was written. -/
theorem C1_theorem (s : BridgeState) (r r2 : ReadingDict) (e e2 : Option SignedReading)
    (hfp : fingerprintOf r = fingerprintOf r2) :
    ((dedupCheckAndRecord s.dedup (fingerprintOf r)).1 = true →
      onReading s r e = (dupState s, COutcome.dropDuplicate)) ∧
    (onReading (onReading s r e).1 r2 e2).2 = COutcome.dropDuplicate ∧
    (onReading (onReading s r e).1 r2 e2).1.stats.duplicates
      = (onReading s r e).1.stats.duplicates + 1 ∧
    (onReading (onReading s r e).1 r2 e2).1.writer = (onReading s r e).1.writer ∧
    (runReadings s [(r, e), (r2, e2)]).writer.length ≤ s.writer.length + 1 ∧
    (∀ row, (onReading s r e).2 = COutcome.wrote row →
      (runReadings s [(r, e), (r2, e2)]).writer = s.writer ++ [row]) := by
  have hmem : fingerprintOf r2 ∈ (onReading s r e).1.dedup :=
    hfp ▸ fingerprint_mem_dedup s r e
  have hchk : (dedupCheckAndRecord (onReading s r e).1.dedup (fingerprintOf r2)).1 = true := by
    simp [dedupCheckAndRecord, hmem]
  have h2 := onReading_dup (onReading s r e).1 r2 e2 hchk
  have hrun : runReadings s [(r, e), (r2, e2)] = (onReading (onReading s r e).1 r2 e2).1 := rfl
  refine ⟨fun hd => onReading_dup s r e hd, ?_, ?_, ?_, ?_, ?_⟩
  · rw [h2]
  · rw [h2]; simp [dupState]
  · rw [h2]; simp [dupState]
  · rw [hrun, h2]
    show (dupState (onReading s r e).1).writer.length ≤ s.writer.length + 1
    rcases onReading_write_step s r e with ⟨row, _, hw, _⟩ | ⟨hw, _, _⟩
    · simp [dupState, hw]
    · simp [dupState, hw]
  · intro row hwrote
    rw [hrun, h2]
    show (dupState (onReading s r e).1).writer = s.writer ++ [row]
    rcases onReading_write_step s r e with ⟨row2, ho, hw, _⟩ | ⟨_, _, hne⟩
    · rw [hwrote] at ho
      injection ho with hrr
      subst hrr
      simp [dupState, hw]
    · exact absurd hwrote (hne row)

/-- Witness for C1: after one delivery of `rdOk`, a second delivery of the
same reading is reported as a duplicate and dropped with the duplicate
counter advanced. -/
theorem C1_theorem_witness :
    (onReading (onReading initBridgeState rdOk Option.none).1 rdOk Option.none).2
      = COutcome.dropDuplicate ∧
    (onReading (onReading initBridgeState rdOk Option.none).1 rdOk Option.none).1.stats.duplicates
      = (onReading initBridgeState rdOk Option.none).1.stats.duplicates + 1 := by
  have h := C1_theorem initBridgeState rdOk rdOk Option.none Option.none rfl
  exact ⟨h.2.1, h.2.2.1⟩

/-- C2 counterexample: the three free-text node descriptor fields do NOT
default to the empty string: `node_name` (likewise `node_info`,
`node_info_url`) is read with a bare dict lookup, so a missing key is
persisted as Python `None`, not as the empty string the claim states. -/
theorem C2_counterexample :
    rdOk.node_name = Option.none ∧
    (onReading initBridgeState rdOk Option.none).1.writer.map Row.node_name = [PyVal.none] ∧
    PyVal.none ≠ PyVal.str "" := by decide

/-- C2 (amended): every row appended by the callback is a 25-field tuple
matching the 25-column `BRIDGE_COLUMNS` schema in order; the textual
fields other than node name, node info and node info URL default to the
empty string when their key is missing, while a missing node name, node
info or node info URL is stored as Python `None` and missing numeric
geolocation fields are stored as absent. -/
theorem C2_theorem (s : BridgeState) (r : ReadingDict) (e : Option SignedReading) (row : Row)
    (h : (onReading s r e).2 = COutcome.wrote row) :
    row.toFields.length = 25 ∧
    BRIDGE_COLUMNS.length = 25 ∧
    (r.device_id = Option.none → row.device_id = PyVal.str "") ∧
    (r.reading_type = Option.none → row.reading_type = PyVal.str "") ∧
    (r.data_source = Option.none → row.data_source = PyVal.str "") ∧
    (r.network_source = Option.none → row.network_source = PyVal.str "") ∧
    (r.ingestion_node_id = Option.none → row.ingestion_node_id = PyVal.str "") ∧
    (r.unit = Option.none → row.unit = PyVal.str "") ∧
    (r.geo_country = Option.none → row.geo_country = PyVal.str "") ∧
    (r.geo_subdivision = Option.none → row.geo_subdivision = PyVal.str "") ∧
    (r.board_model = Option.none → row.board_model = PyVal.str "") ∧
    (r.sensor_model = Option.none → row.sensor_model = PyVal.str "") ∧
    (r.deployment_type = Option.none → row.deployment_type = PyVal.str "") ∧
    (r.deployment_type_source = Option.none → row.deployment_type_source = PyVal.str "") ∧
    (r.transport_type = Option.none → row.transport_type = PyVal.str "") ∧
    (r.deployment_location = Option.none → row.deployment_location = PyVal.str "") ∧
    (r.node_name = Option.none → row.node_name = PyVal.none) ∧
    (r.node_info = Option.none → row.node_info = PyVal.none) ∧
    (r.node_info_url = Option.none → row.node_info_url = PyVal.none) ∧
    (r.latitude = Option.none → row.latitude = Option.none) ∧
    (r.longitude = Option.none → row.longitude = Option.none) ∧
    (r.altitude = Option.none → row.altitude = Option.none) := by
  obtain ⟨ts, f, la, lo, al, hrow, hla, hlo, hal, hts, v, hv, hconv⟩ :=
    row_of_written s r e row h
  subst hrow
  refine ⟨by simp [Row.toFields], by simp [BRIDGE_COLUMNS], ?_, ?_, ?_, ?_, ?_, ?_, ?_, ?_,
    ?_, ?_, ?_, ?_, ?_, ?_, ?_, ?_, ?_, ?_, ?_, ?_⟩
  all_goals intro hm
  all_goals simp_all [expectedRow, geoFloat]

/-- Witness for C2: the row written for `rdOk` (all optional keys missing)
has 25 fields, empty-string data source, and `None` node name. -/
theorem C2_theorem_witness :
    (expectedRow rdOk 1000 (PyFloat.finite 5)
        Option.none Option.none Option.none Option.none).toFields.length = 25 ∧
    (expectedRow rdOk 1000 (PyFloat.finite 5)
        Option.none Option.none Option.none Option.none).data_source = PyVal.str "" ∧
    (expectedRow rdOk 1000 (PyFloat.finite 5)
        Option.none Option.none Option.none Option.none).node_name = PyVal.none := by
  obtain ⟨h1, h2, h3, h4, h5, h6, h7, h8, h9, h10, h11, h12, h13, h14, h15, h16, h17, h18,
    h19, h20, h21, h22⟩ :=
    C2_theorem initBridgeState rdOk Option.none
      (expectedRow rdOk 1000 (PyFloat.finite 5) Option.none Option.none Option.none Option.none)
      (by decide)
  exact ⟨h1, h5 rfl, h17 rfl⟩

/-- C3: a reading delivered without a signed envelope that passes dedup,
timestamp parsing and value validation is still persisted, with signature
and ingester id equal to the empty string, key version 0, and the unsigned
counter incremented. -/
theorem C3_theorem (s : BridgeState) (r : ReadingDict) (ts : Int) (v : PyVal) (f : PyFloat)
    (la lo al : Option PyFloat)
    (hnd : (dedupCheckAndRecord s.dedup (fingerprintOf r)).1 = false)
    (hts : parseTimestamp (r.timestamp.getD (PyVal.int 0)) = ExcResult.ok ts)
    (hv : r.value = some v) (hconv : pyFloatConv v = some f)
    (hla : geoFloat r.latitude = ExcResult.ok la)
    (hlo : geoFloat r.longitude = ExcResult.ok lo)
    (hal : geoFloat r.altitude = ExcResult.ok al) :
    (onReading s r Option.none).2
      = COutcome.wrote (expectedRow r ts f la lo al Option.none) ∧
    (onReading s r Option.none).1.writer
      = s.writer ++ [expectedRow r ts f la lo al Option.none] ∧
    (expectedRow r ts f la lo al Option.none).signature = "" ∧
    (expectedRow r ts f la lo al Option.none).ingester_id = "" ∧
    (expectedRow r ts f la lo al Option.none).key_version = 0 ∧
    (onReading s r Option.none).1.stats.unsigned = s.stats.unsigned + 1 := by
  have h := onReading_written_case s r Option.none ts v f la lo al hnd hts hv hconv hla hlo hal
  refine ⟨h.1, h.2.1, by simp [expectedRow, sigStrOf], by simp [expectedRow, ingesterOf],
    by simp [expectedRow, keyVerOf], ?_⟩
  have hu := h.2.2.2.1
  simpa [unsignedFlag] using hu

/-- Witness for C3: the unsigned reading `rdOk` is persisted with empty
signature fields and the unsigned counter reaches 1. -/
theorem C3_theorem_witness :
    (onReading initBridgeState rdOk Option.none).1.stats.unsigned = 1 ∧
    (onReading initBridgeState rdOk Option.none).1.writer
      = [expectedRow rdOk 1000 (PyFloat.finite 5) Option.none Option.none Option.none
          Option.none] ∧
    (expectedRow rdOk 1000 (PyFloat.finite 5) Option.none Option.none Option.none
      Option.none).signature = "" := by
  have h := C3_theorem initBridgeState rdOk 1000 (PyVal.int 5) (PyFloat.finite 5)
    Option.none Option.none Option.none (by decide) (by decide) rfl (by decide) (by decide)
    (by decide) (by decide)
  exact ⟨by simpa using h.2.2.2.2.2, by simpa using h.2.1, h.2.2.1⟩

/-- C4: a reading persisted with a signed envelope stores the envelope's
signature bytes hex-encoded (hex-decoding the stored field recovers the
raw bytes exactly), and the ingester id and key version verbatim. -/
theorem C4_theorem (s : BridgeState) (r : ReadingDict) (sr : SignedReading) (ts : Int)
    (v : PyVal) (f : PyFloat) (la lo al : Option PyFloat)
    (hnd : (dedupCheckAndRecord s.dedup (fingerprintOf r)).1 = false)
    (hts : parseTimestamp (r.timestamp.getD (PyVal.int 0)) = ExcResult.ok ts)
    (hv : r.value = some v) (hconv : pyFloatConv v = some f)
    (hla : geoFloat r.latitude = ExcResult.ok la)
    (hlo : geoFloat r.longitude = ExcResult.ok lo)
    (hal : geoFloat r.altitude = ExcResult.ok al) :
    (onReading s r (some sr)).2
      = COutcome.wrote (expectedRow r ts f la lo al (some sr)) ∧
    (expectedRow r ts f la lo al (some sr)).signature = bytesHex sr.signature ∧
    hexDecode (expectedRow r ts f la lo al (some sr)).signature = some sr.signature ∧
    (expectedRow r ts f la lo al (some sr)).ingester_id = sr.ingester_id ∧
    (expectedRow r ts f la lo al (some sr)).key_version = sr.key_version := by
  have h := onReading_written_case s r (some sr) ts v f la lo al hnd hts hv hconv hla hlo hal
  refine ⟨h.1, by simp [expectedRow, sigStrOf], ?_, by simp [expectedRow, ingesterOf],
    by simp [expectedRow, keyVerOf]⟩
  show hexDecode (expectedRow r ts f la lo al (some sr)).signature = some sr.signature
  have : (expectedRow r ts f la lo al (some sr)).signature = bytesHex sr.signature := by
    simp [expectedRow, sigStrOf]
  rw [this, hexDecode_bytesHex]

/-- Witness for C4: the row written for `rdOk` under the envelope `srW`
hex-decodes back to the original signature bytes and copies the ingester
id verbatim. -/
theorem C4_theorem_witness :
    (onReading initBridgeState rdOk (some srW)).2
      = COutcome.wrote (expectedRow rdOk 1000 (PyFloat.finite 5)
          Option.none Option.none Option.none (some srW)) ∧
    hexDecode (expectedRow rdOk 1000 (PyFloat.finite 5)
        Option.none Option.none Option.none (some srW)).signature = some srW.signature ∧
    (expectedRow rdOk 1000 (PyFloat.finite 5)
        Option.none Option.none Option.none (some srW)).ingester_id = srW.ingester_id := by
  have h := C4_theorem initBridgeState rdOk srW 1000 (PyVal.int 5) (PyFloat.finite 5)
    Option.none Option.none Option.none (by decide) (by decide) rfl (by decide) (by decide)
    (by decide) (by decide)
  exact ⟨h.1, h.2.2.1, h.2.2.2.1⟩

/-- C5 counterexample: a persisted value need not be finite. The reading
`rdValInf` carries the Python float `inf` (which `json.loads` produces for
the JSON literal `Infinity`); `float(inf)` succeeds, so the row is
appended with a non-finite value. -/
theorem C5_counterexample :
    (onReading initBridgeState rdValInf Option.none).1.writer.map Row.value = [PyFloat.inf] ∧
    PyFloat.inf.isFinite = false := by decide

/-- C5 (amended): every row that reaches the writer carries a value
obtained from a successful Python float conversion of a present value
field — readings with a missing or unconvertible value are dropped before
the append — but the converted value need not be finite: `inf`/`nan`
inputs convert successfully and are persisted. -/
theorem C5_theorem (s : BridgeState) (r : ReadingDict) (e : Option SignedReading) :
    (∀ row, (onReading s r e).2 = COutcome.wrote row →
      ∃ v, r.value = some v ∧ pyFloatConv v = some row.value) ∧
    ((∀ v, r.value = some v → pyFloatConv v = Option.none) →
      (onReading s r e).1.writer = s.writer) := by
  constructor
  · intro row h
    obtain ⟨ts, f, la, lo, al, hrow, _, _, _, _, v, hv, hconv⟩ := row_of_written s r e row h
    refine ⟨v, hv, ?_⟩
    rw [hrow]
    simpa [expectedRow] using hconv
  · intro hval
    rcases onReading_write_step s r e with ⟨row, ho, _, _⟩ | ⟨hw, _, _⟩
    · obtain ⟨ts, f, la, lo, al, _, _, _, _, _, v, hv, hconv⟩ := row_of_written s r e row ho
      rw [hval v hv] at hconv
      exact Option.noConfusion hconv
    · exact hw

/-- Witness for C5: the persisted value of `rdOk` comes from a successful
conversion, and the valueless reading `rdNoValue` appends nothing. -/
theorem C5_theorem_witness :
    (∃ v, rdOk.value = some v ∧ pyFloatConv v
        = some (expectedRow rdOk 1000 (PyFloat.finite 5)
            Option.none Option.none Option.none Option.none).value) ∧
    (onReading initBridgeState rdNoValue Option.none).1.writer = initBridgeState.writer := by
  refine ⟨(C5_theorem initBridgeState rdOk Option.none).1 _ (by decide),
    (C5_theorem initBridgeState rdNoValue Option.none).2 ?_⟩
  intro v hv
  exact Option.noConfusion hv

/-- C6 counterexample: an unparseable timestamp CAN crash the callback: an
infinite float timestamp makes `int(timestamp)` raise `OverflowError`,
which is not among the classes the `except` clause catches, so no warning
is logged and the callback does not return normally. -/
theorem C6_counterexample :
    parseTimestamp (rdTsInf.timestamp.getD (PyVal.int 0)) = ExcResult.uncaught ∧
    (onReading initBridgeState rdTsInf Option.none).2 = COutcome.raised ∧
    (onReading initBridgeState rdTsInf Option.none).1.log = [] ∧
    (onReading initBridgeState rdTsInf Option.none).1.writer = [] := by decide

/-- C6 (amended): for a non-duplicate reading whose timestamp conversion
fails with one of the caught exception classes (`ValueError`, `TypeError`,
`OSError` — every failure except an infinite float or an integer beyond
the platform `time_t` range), the callback persists no row, appends an
invalid-timestamp warning to the log and returns normally; when the
conversion instead raises an uncaught class (`OverflowError`), no row is
persisted, nothing is logged, and the exception escapes the callback. -/
theorem C6_theorem (s : BridgeState) (r : ReadingDict) (e : Option SignedReading)
    (hnd : (dedupCheckAndRecord s.dedup (fingerprintOf r)).1 = false) :
    (parseTimestamp (r.timestamp.getD (PyVal.int 0)) = ExcResult.caught →
      (onReading s r e).2 = COutcome.dropTimestamp ∧
      (onReading s r e).1.writer = s.writer ∧
      (onReading s r e).1.log = s.log ++
        [LogEntry.invalidTimestamp (r.timestamp.getD (PyVal.int 0))
          (r.device_id.getD (PyVal.str ""))]) ∧
    (parseTimestamp (r.timestamp.getD (PyVal.int 0)) = ExcResult.uncaught →
      (onReading s r e).2 = COutcome.raised ∧
      (onReading s r e).1.writer = s.writer ∧
      (onReading s r e).1.log = s.log) := by
  constructor
  · intro hts
    have h := onReading_ts_caught s r e hnd hts
    exact ⟨h.1, h.2.1, h.2.2.2.2.2⟩
  · intro hts
    have h := onReading_ts_uncaught s r e hnd hts
    exact ⟨h.1, h.2.1, h.2.2.2.2.2⟩

/-- Witness for C6: the string timestamp of `rdTsBadStr` is dropped with a
warning, while the infinite timestamp of `rdTsInf` escapes as an uncaught
exception. -/
theorem C6_theorem_witness :
    (onReading initBridgeState rdTsBadStr Option.none).2 = COutcome.dropTimestamp ∧
    (onReading initBridgeState rdTsInf Option.none).2 = COutcome.raised :=
  ⟨((C6_theorem initBridgeState rdTsBadStr Option.none (by decide)).1 (by decide)).1,
   ((C6_theorem initBridgeState rdTsInf Option.none (by decide)).2 (by decide)).1⟩

/-- C7: a non-duplicate reading with a valid timestamp whose value is
missing or non-numeric is dropped silently: no row is appended, the log is
unchanged, and the callback returns normally. -/
theorem C7_theorem (s : BridgeState) (r : ReadingDict) (e : Option SignedReading) (ts : Int)
    (hnd : (dedupCheckAndRecord s.dedup (fingerprintOf r)).1 = false)
    (hts : parseTimestamp (r.timestamp.getD (PyVal.int 0)) = ExcResult.ok ts)
    (hval : ∀ v, r.value = some v → pyFloatConv v = Option.none) :
    (onReading s r e).2 = COutcome.dropValue ∧
    (onReading s r e).1.writer = s.writer ∧
    (onReading s r e).1.log = s.log ∧
    (onReading s r e).1.stats.written = s.stats.written := by
  have h := onReading_value_drop s r e ts hnd hts hval
  exact ⟨h.1, h.2.1, h.2.2.2.2.2, h.2.2.1⟩

/-- Witness for C7: the non-numeric string value of `rdValStr` is dropped
with no log entry. -/
theorem C7_theorem_witness :
    (onReading initBridgeState rdValStr Option.none).2 = COutcome.dropValue ∧
    (onReading initBridgeState rdValStr Option.none).1.log = initBridgeState.log := by
  have h := C7_theorem initBridgeState rdValStr Option.none 1000 (by decide) (by decide)
    (fun v hv => by cases hv; decide)
  exact ⟨h.1, h.2.2.1⟩

/-- C8: the shutdown transition is idempotent — invoking it twice yields
the same final state as invoking it once, both marks are set, and starting
from the running state the effectful subscriber and sink teardowns are
each performed exactly once, however many times shutdown is invoked. -/
theorem C8_theorem (l : LifeState) :
    shutdown (shutdown l) = shutdown l ∧
    (shutdown l).running = false ∧
    (shutdown l).subscriberClosed = true ∧
    (shutdown l).writerClosed = true ∧
    (shutdown (shutdown initLifeState)).subscriberTeardowns = 1 ∧
    (shutdown (shutdown initLifeState)).writerTeardowns = 1 := by
  refine ⟨?_, ?_, ?_, ?_, by decide, by decide⟩
  all_goals cases l with
  | mk run sc wc st wt =>
    cases sc <;> cases wc <;> simp [shutdown, subscriberClose, writerClose]

/-- C9: a reading delivered without an envelope whose fingerprint is not a
duplicate increments the unsigned counter regardless of whether the
reading survives timestamp and value validation; concretely, the
no-envelope reading `rdNoValue` is dropped for its missing value yet
leaves the unsigned counter at 1 with nothing persisted, so the unsigned
count can exceed the number of unsigned rows persisted. -/
theorem C9_theorem (s : BridgeState) (r : ReadingDict)
    (hnd : (dedupCheckAndRecord s.dedup (fingerprintOf r)).1 = false) :
    (onReading s r Option.none).1.stats.unsigned = s.stats.unsigned + 1 ∧
    (runReadings initBridgeState [(rdNoValue, Option.none)]).stats.unsigned = 1 ∧
    (runReadings initBridgeState [(rdNoValue, Option.none)]).stats.written = 0 ∧
    (runReadings initBridgeState [(rdNoValue, Option.none)]).writer.length = 0 :=
  ⟨onReading_unsigned_nodup s r hnd, by decide, by decide, by decide⟩

/-- Witness for C9: instantiated at the initial state and `rdNoValue`. -/
theorem C9_theorem_witness :
    (onReading initBridgeState rdNoValue Option.none).1.stats.unsigned
      = initBridgeState.stats.unsigned + 1 ∧
    (runReadings initBridgeState [(rdNoValue, Option.none)]).stats.unsigned = 1 ∧
    (runReadings initBridgeState [(rdNoValue, Option.none)]).writer.length = 0 := by
  have h := C9_theorem initBridgeState rdNoValue (by decide)
  exact ⟨h.1, h.2.1, h.2.2.2⟩

/-- C10: every callback invocation increments the received counter by
exactly one; the written counter advances exactly when a row is appended
(and by exactly one); all four counters are non-decreasing across an
invocation; and over any event sequence from the initial state, received
equals the number of invocations and received is at least written plus
duplicates. -/
theorem C10_theorem :
    (∀ (s : BridgeState) (r : ReadingDict) (e : Option SignedReading),
      (onReading s r e).1.stats.received = s.stats.received + 1) ∧
    (∀ (s : BridgeState) (r : ReadingDict) (e : Option SignedReading),
      (∃ row, (onReading s r e).2 = COutcome.wrote row ∧
        (onReading s r e).1.writer = s.writer ++ [row] ∧
        (onReading s r e).1.stats.written = s.stats.written + 1) ∨
      ((onReading s r e).1.writer = s.writer ∧
        (onReading s r e).1.stats.written = s.stats.written ∧
        ∀ row, (onReading s r e).2 ≠ COutcome.wrote row)) ∧
    (∀ (s : BridgeState) (r : ReadingDict) (e : Option SignedReading),
      s.stats.received ≤ (onReading s r e).1.stats.received ∧
      s.stats.written ≤ (onReading s r e).1.stats.written ∧
      s.stats.duplicates ≤ (onReading s r e).1.stats.duplicates ∧
      s.stats.unsigned ≤ (onReading s r e).1.stats.unsigned) ∧
    (∀ events : List (ReadingDict × Option SignedReading),
      (runReadings initBridgeState events).stats.received = events.length ∧
      (runReadings initBridgeState events).stats.written
          + (runReadings initBridgeState events).stats.duplicates
        ≤ (runReadings initBridgeState events).stats.received) := by
  refine ⟨onReading_received, onReading_write_step, onReading_mono, fun events => ⟨?_, ?_⟩⟩
  · rw [runReadings_received events initBridgeState]
    simp [initBridgeState]
  · exact runReadings_ineq events initBridgeState (by decide)

/-- Witness for C10: instantiated on the one-event sequence delivering
`rdOk`. -/
theorem C10_theorem_witness :
    (runReadings initBridgeState [(rdOk, Option.none)]).stats.received
      = [(rdOk, (Option.none : Option SignedReading))].length ∧
    (runReadings initBridgeState [(rdOk, Option.none)]).stats.written
        + (runReadings initBridgeState [(rdOk, Option.none)]).stats.duplicates
      ≤ (runReadings initBridgeState [(rdOk, Option.none)]).stats.received :=
  C10_theorem.2.2.2 [(rdOk, Option.none)]

